import Mathlib

/-!
Verification of the imagen-v2 front-end variants (src/index.tsx and
src/unnamed/part_000): the prompt-history store, the generate() controller
flow, and the per-card upscale sub-flow of the index.tsx variant.

Shallow embedding notes:
* JS strings are Lean `String`s; `String.prototype.trim` is embedded as
  `jsTrim`, a structural both-ends whitespace strip over the character list.
* The mutable page state touched by `generate()` (history list, localStorage
  slot, control disabled flags, loading overlay, status element) is an
  explicit state record; DOM side effects are additionally logged as an
  event list so that "no network call was issued" is expressible.
* The external image API is an oracle parameter (`ApiOutcome`,
  `UpscaleApiResult`, `DimensionsResult`): the embedding covers every
  possible reply, including thrown errors.
-/

/-- Embedding of JS `String.prototype.trim` (src/index.tsx line 312,
src/unnamed/part_000 line 169): strip whitespace characters from both ends. -/
def jsTrim (s : String) : String :=
  String.mk (((s.data.dropWhile Char.isWhitespace).reverse.dropWhile
    Char.isWhitespace).reverse)

/-- The history-recording step performed by `generate` after a successful
generation (src/index.tsx lines 332-337; textually identical in
src/unnamed/part_000 lines 195-200): if the prompt is already present do
nothing, otherwise `unshift` it to the front and `pop` the last entry when
the length exceeds 50. -/
def record (history : List String) (prompt : String) : List String :=
  if history.contains prompt then history
  else
    let h1 := prompt :: history
    if h1.length > 50 then h1.dropLast else h1

/-- The invariant the spec states for the stored history: at most 50
entries and no duplicate string. -/
def historyInvariant (h : List String) : Prop :=
  h.length ≤ 50 ∧ h.Nodup

instance (h : List String) : Decidable (historyInvariant h) := by
  unfold historyInvariant
  infer_instance

theorem record_of_mem (h : List String) (p : String) (hp : p ∈ h) :
    record h p = h := by
  simp [record, List.contains, List.elem_iff, hp]

theorem record_of_not_mem (h : List String) (p : String) (hp : p ∉ h) :
    record h p = if (p :: h).length > 50 then (p :: h).dropLast else p :: h := by
  have hc : h.contains p = false := by
    simp [List.contains, List.elem_iff, hp]
  simp only [record, hc, Bool.false_eq_true, if_false]

theorem record_invariant (h : List String) (p : String)
    (hinv : historyInvariant h) : historyInvariant (record h p) := by
  rcases hinv with ⟨hlen, hnd⟩
  by_cases hp : p ∈ h
  · rw [record_of_mem h p hp]
    exact ⟨hlen, hnd⟩
  · rw [record_of_not_mem h p hp]
    have hcons : (p :: h).Nodup := List.nodup_cons.mpr ⟨hp, hnd⟩
    by_cases hl : (p :: h).length > 50
    · rw [if_pos hl]
      refine ⟨?_, hcons.sublist (List.dropLast_sublist _)⟩
      rw [List.length_dropLast]
      simp only [List.length_cons]
      omega
    · rw [if_neg hl]
      refine ⟨?_, hcons⟩
      simp only [List.length_cons] at hl ⊢
      omega

theorem foldl_record_invariant (ps : List String) (h : List String)
    (hinv : historyInvariant h) : historyInvariant (ps.foldl record h) := by
  induction ps generalizing h with
  | nil => exact hinv
  | cons p rest ih => exact ih (record h p) (record_invariant h p hinv)

/-- C1: starting from any history satisfying the invariant (at most 50
entries, no duplicates), every sequence of `record` operations keeps the
invariant after each step: for every number `n` of operations performed so
far, the history obtained by folding the first `n` recorded prompts has at
most 50 entries and no duplicate string. -/
theorem history_invariant_all_steps (h : List String) (ps : List String)
    (hinv : historyInvariant h) :
    ∀ n : Nat, historyInvariant ((ps.take n).foldl record h) := by
  intro n
  exact foldl_record_invariant (ps.take n) h hinv

theorem history_invariant_all_steps_witness :
    historyInvariant ["dog", "cat"] ∧
      historyInvariant (((["bird", "cat", "fish"].take 2).foldl record
        ["dog", "cat"])) :=
  ⟨by decide, history_invariant_all_steps ["dog", "cat"] ["bird", "cat", "fish"]
    (by decide) 2⟩

/-- C4: recording a prompt that is already present in the history leaves
the history completely unchanged — in particular its length is unchanged and
the entry is not duplicated (its count is unchanged); the position also does
not change, which the claim permits. -/
theorem record_present_preserves (h : List String) (p : String)
    (hp : p ∈ h) :
    (record h p).length = h.length ∧
      (record h p).count p = h.count p ∧
      record h p = h := by
  rw [record_of_mem h p hp]
  exact ⟨rfl, rfl, rfl⟩

theorem record_present_preserves_witness :
    "dog" ∈ ["cat", "dog", "fox"] ∧
      ((record ["cat", "dog", "fox"] "dog").length =
          (["cat", "dog", "fox"] : List String).length ∧
        (record ["cat", "dog", "fox"] "dog").count "dog" =
          (["cat", "dog", "fox"] : List String).count "dog" ∧
        record ["cat", "dog", "fox"] "dog" = ["cat", "dog", "fox"]) :=
  ⟨by decide, record_present_preserves ["cat", "dog", "fox"] "dog" (by decide)⟩

/-- Outcome of the external image-generation API call made by
`generateImage` (src/index.tsx lines 280-288, src/unnamed/part_000 lines
137-145): either a list of returned image byte strings or a thrown error
with a message. -/
inductive ApiOutcome where
  | ok (imageBytesList : List String)
  | thrown (msg : String)
deriving DecidableEq

/-- The result `generateImage` hands back to `generate` (src/index.tsx
lines 290-293, src/unnamed/part_000 lines 147-150): an absent or empty
image list is turned into a thrown error with the fixed message. -/
def generateImageResult (outcome : ApiOutcome) : Except String (List String) :=
  match outcome with
  | ApiOutcome.thrown m => Except.error m
  | ApiOutcome.ok imgs =>
    if imgs.length = 0 then
      Except.error "No images were generated. The prompt may have been blocked."
    else Except.ok imgs

/-- Content of the `#status` element: either plain text set through
`innerText`, or the markup rendered by `showStatusError` (src/index.tsx
lines 53-62), which carries the message and whether a Try Again button
wired to `generate` is present. -/
inductive StatusContent where
  | text (s : String)
  | error (msg : String) (retry : Bool)
deriving DecidableEq

/-- Observable side effects of one `generate()` run, in order. `apiCall`
records the prompt string handed to the image API; `save` records the list
written to localStorage by `saveHistory` (src/index.tsx lines 363-365). -/
inductive GenEvent where
  | statusError (msg : String) (retry : Bool)
  | openKeyDialog
  | setLoading (b : Bool)
  | controlsDisabled (b : Bool)
  | statusText (s : String)
  | clearResults
  | apiCall (prompt : String)
  | save (h : List String)
deriving DecidableEq

/-- Disabled flags of the six form controls of the index.tsx variant
(src/index.tsx lines 20-28): generate button, prompt field and the four
option selectors (aspect ratio, resolution, image count, format). -/
structure ControlsR where
  generateButton : Bool
  promptEl : Bool
  aspectRatioSelect : Bool
  resolutionSelect : Bool
  numImagesSelect : Bool
  formatSelect : Bool
deriving DecidableEq

/-- `setControlsDisabled` of the index.tsx variant (src/index.tsx lines
68-75): sets all six disabled flags to the given value. -/
def setControlsDisabled (disabled : Bool) : ControlsR :=
  { generateButton := disabled, promptEl := disabled,
    aspectRatioSelect := disabled, resolutionSelect := disabled,
    numImagesSelect := disabled, formatSelect := disabled }

/-- Disabled flags of the six form controls of the quality-select variant
(src/unnamed/part_000 lines 20-28): same as the index.tsx variant with a
quality selector in place of the resolution selector. -/
structure ControlsQ where
  generateButton : Bool
  promptEl : Bool
  aspectRatioSelect : Bool
  qualitySelect : Bool
  numImagesSelect : Bool
  formatSelect : Bool
deriving DecidableEq

/-- `setControlsDisabled` of the quality-select variant
(src/unnamed/part_000 lines 68-75). -/
def setControlsDisabledQ (disabled : Bool) : ControlsQ :=
  { generateButton := disabled, promptEl := disabled,
    aspectRatioSelect := disabled, qualitySelect := disabled,
    numImagesSelect := disabled, formatSelect := disabled }

/-- Page state touched by `generate()` in the index.tsx variant: the
in-memory history list, the localStorage history slot, the control
disabled flags, whether the loading overlay is hidden, and the status
element content. -/
structure AppStateR where
  history : List String
  stored : Option (List String)
  controls : ControlsR
  loadingHidden : Bool
  status : StatusContent
deriving DecidableEq

/-- Page state touched by `generate()` in the quality-select variant. -/
structure AppStateQ where
  history : List String
  stored : Option (List String)
  controls : ControlsQ
  loadingHidden : Bool
  status : StatusContent
deriving DecidableEq

/-- Inputs read by `generate()` in the index.tsx variant: the API key
environment value, the raw prompt field value, the four selector values,
and whether the AI Studio key-selection hook is available
(src/index.tsx lines 304-326, 40-46). -/
structure GenInputR where
  apiKey : Option String
  promptValue : String
  aspectRatioValue : String
  resolutionValue : String
  numImagesValue : String
  formatValue : String
  keyDialogAvailable : Bool
deriving DecidableEq

/-- Inputs read by `generate()` in the quality-select variant
(src/unnamed/part_000 lines 161-184, 40-46). -/
structure GenInputQ where
  apiKey : Option String
  promptValue : String
  aspectRatioValue : String
  qualityValue : String
  numImagesValue : String
  formatValue : String
  keyDialogAvailable : Bool
deriving DecidableEq

/-- `generate()` of the index.tsx variant (src/index.tsx lines 304-347),
as a function from the inputs, the API oracle outcome and the starting
page state to the final page state and the ordered side-effect trace.
Branches in order: missing API key (error status, then the key dialog or
its fallback message), empty trimmed prompt (inline error, early return),
then the try/catch/finally around the API call: on success the prompt is
recorded into history and saved unless already present; on any thrown
error `showStatusError` renders the generic retry message; the finally
block always hides the overlay, re-enables the controls and clears the
status text. -/
def generateR (inp : GenInputR) (outcome : ApiOutcome) (st : AppStateR) :
    AppStateR × List GenEvent :=
  match inp.apiKey with
  | none =>
    if inp.keyDialogAvailable then
      ({ st with status := (StatusContent.error
            "API key is not configured. Please add your API key." false) },
       [GenEvent.statusError
          "API key is not configured. Please add your API key." false,
        GenEvent.openKeyDialog])
    else
      ({ st with status := (StatusContent.error
            "API key selection is not available. Please configure the API_KEY environment variable."
            false) },
       [GenEvent.statusError
          "API key is not configured. Please add your API key." false,
        GenEvent.statusError
          "API key selection is not available. Please configure the API_KEY environment variable."
          false])
  | some _ =>
    let prompt := jsTrim inp.promptValue
    if prompt = "" then
      ({ st with status := StatusContent.error "Please enter a prompt." false },
       [GenEvent.statusError "Please enter a prompt." false])
    else
      let preEvents := [GenEvent.statusText "", GenEvent.setLoading true,
        GenEvent.controlsDisabled true,
        GenEvent.statusText "Generating images...", GenEvent.apiCall prompt]
      let finEvents := [GenEvent.setLoading false,
        GenEvent.controlsDisabled false, GenEvent.statusText ""]
      match generateImageResult outcome with
      | Except.ok _ =>
        if st.history.contains prompt then
          ({ st with
              loadingHidden := true,
              controls := setControlsDisabled false,
              status := StatusContent.text "" },
           preEvents ++ finEvents)
        else
          let hist2 := record st.history prompt
          ({ st with
              history := hist2, stored := some hist2,
              loadingHidden := true, controls := setControlsDisabled false,
              status := StatusContent.text "" },
           preEvents ++ [GenEvent.save hist2] ++ finEvents)
      | Except.error m =>
        ({ st with
            loadingHidden := true,
            controls := setControlsDisabled false,
            status := StatusContent.text "" },
         preEvents ++ [GenEvent.statusError ("Generation failed: " ++ m) true]
           ++ finEvents)

/-- The fixed suffix the quality-select variant appends to the user prompt
when quality is "high" (src/unnamed/part_000 line 188). -/
def highQualitySuffix : String :=
  ", 8k, photorealistic, ultra high detail, sharp focus, professional photography"

/-- `generate()` of the quality-select variant (src/unnamed/part_000 lines
161-210). Differences from the index.tsx variant: the results grid is
cleared before the call, and when quality is "high" the prompt sent to the
API is the trimmed user prompt with `highQualitySuffix` appended, while the
history duplicate check and recording always use the raw trimmed user
prompt. -/
def generateQ (inp : GenInputQ) (outcome : ApiOutcome) (st : AppStateQ) :
    AppStateQ × List GenEvent :=
  match inp.apiKey with
  | none =>
    if inp.keyDialogAvailable then
      ({ st with status := (StatusContent.error
            "API key is not configured. Please add your API key." false) },
       [GenEvent.statusError
          "API key is not configured. Please add your API key." false,
        GenEvent.openKeyDialog])
    else
      ({ st with status := (StatusContent.error
            "API key selection is not available. Please configure the API_KEY environment variable."
            false) },
       [GenEvent.statusError
          "API key is not configured. Please add your API key." false,
        GenEvent.statusError
          "API key selection is not available. Please configure the API_KEY environment variable."
          false])
  | some _ =>
    let userPrompt := jsTrim inp.promptValue
    if userPrompt = "" then
      ({ st with status := StatusContent.error "Please enter a prompt." false },
       [GenEvent.statusError "Please enter a prompt." false])
    else
      let finalPrompt :=
        if inp.qualityValue = "high" then userPrompt ++ highQualitySuffix
        else userPrompt
      let preEvents := [GenEvent.statusText "", GenEvent.setLoading true,
        GenEvent.controlsDisabled true, GenEvent.clearResults,
        GenEvent.statusText "Generating images...",
        GenEvent.apiCall finalPrompt]
      let finEvents := [GenEvent.setLoading false,
        GenEvent.controlsDisabled false, GenEvent.statusText ""]
      match generateImageResult outcome with
      | Except.ok _ =>
        if st.history.contains userPrompt then
          ({ st with
              loadingHidden := true,
              controls := setControlsDisabledQ false,
              status := StatusContent.text "" },
           preEvents ++ finEvents)
        else
          let hist2 := record st.history userPrompt
          ({ st with
              history := hist2, stored := some hist2,
              loadingHidden := true, controls := setControlsDisabledQ false,
              status := StatusContent.text "" },
           preEvents ++ [GenEvent.save hist2] ++ finEvents)
      | Except.error m =>
        ({ st with
            loadingHidden := true,
            controls := setControlsDisabledQ false,
            status := StatusContent.text "" },
         preEvents ++ [GenEvent.statusError ("Generation failed: " ++ m) true]
           ++ finEvents)

theorem record_take_50 (h : List String) (p : String) (hp : p ∉ h)
    (hlen : h.length ≤ 50) : record h p = (p :: h).take 50 := by
  rw [record_of_not_mem h p hp]
  by_cases hl : (p :: h).length > 50
  · rw [if_pos hl, List.dropLast_eq_take]
    congr 1
    simp only [List.length_cons] at hl ⊢
    omega
  · rw [if_neg hl]
    rw [List.take_of_length_le]
    simp only [List.length_cons] at hl ⊢
    omega

/-- C3: when the trimmed prompt is not yet in the history and a generation
succeeds, `generate()` of the index.tsx variant inserts the prompt at the
front of the history (index 0, newest first), truncates the result to the
most recent 50 entries, and synchronously persists exactly that list to
the storage slot. -/
theorem record_inserts_front_truncates_persists
    (inp : GenInputR) (outcome : ApiOutcome) (st : AppStateR) (k : String)
    (imgs : List String)
    (hkey : inp.apiKey = some k)
    (hne : jsTrim inp.promptValue ≠ "")
    (hmem : jsTrim inp.promptValue ∉ st.history)
    (hlen : st.history.length ≤ 50)
    (hok : generateImageResult outcome = Except.ok imgs) :
    (generateR inp outcome st).1.history =
        (jsTrim inp.promptValue :: st.history).take 50 ∧
      (generateR inp outcome st).1.stored =
        some ((generateR inp outcome st).1.history) := by
  have hrec := record_take_50 st.history (jsTrim inp.promptValue) hmem hlen
  simp [generateR, hkey, hne, hok, hmem, hrec]

theorem record_inserts_front_truncates_persists_witness :
    (let inp : GenInputR :=
      { apiKey := some "key", promptValue := " a red fox ",
        aspectRatioValue := "1:1", resolutionValue := "1024",
        numImagesValue := "1", formatValue := "image/jpeg",
        keyDialogAvailable := true }
    let st : AppStateR :=
      { history := ["cat"], stored := some ["cat"],
        controls := setControlsDisabled false, loadingHidden := true,
        status := StatusContent.text "" }
    (generateR inp (ApiOutcome.ok ["bytes0"]) st).1.history =
        (jsTrim " a red fox " :: ["cat"]).take 50 ∧
      (generateR inp (ApiOutcome.ok ["bytes0"]) st).1.stored =
        some ((generateR inp (ApiOutcome.ok ["bytes0"]) st).1.history)) :=
  record_inserts_front_truncates_persists _ _ _ "key" ["bytes0"] rfl
    (by decide) (by decide) (by decide) rfl

/-- C5: whenever the trimmed prompt is empty (empty or whitespace-only),
`generate()` of either variant issues no API call, leaves both the
in-memory history and the persisted slot unchanged, and only ever shows an
inline error without a retry button (the status element holds an error
with no Try Again action, and every status-error effect of the run has the
retry flag off). -/
theorem empty_prompt_no_network_no_history
    (inpR : GenInputR) (outcomeR : ApiOutcome) (stR : AppStateR)
    (inpQ : GenInputQ) (outcomeQ : ApiOutcome) (stQ : AppStateQ)
    (hR : jsTrim inpR.promptValue = "") (hQ : jsTrim inpQ.promptValue = "") :
    ((∀ p, GenEvent.apiCall p ∉ (generateR inpR outcomeR stR).2) ∧
      (generateR inpR outcomeR stR).1.history = stR.history ∧
      (generateR inpR outcomeR stR).1.stored = stR.stored ∧
      (∃ m, (generateR inpR outcomeR stR).1.status =
        StatusContent.error m false) ∧
      (∀ m r, GenEvent.statusError m r ∈ (generateR inpR outcomeR stR).2 →
        r = false)) ∧
    ((∀ p, GenEvent.apiCall p ∉ (generateQ inpQ outcomeQ stQ).2) ∧
      (generateQ inpQ outcomeQ stQ).1.history = stQ.history ∧
      (generateQ inpQ outcomeQ stQ).1.stored = stQ.stored ∧
      (∃ m, (generateQ inpQ outcomeQ stQ).1.status =
        StatusContent.error m false) ∧
      (∀ m r, GenEvent.statusError m r ∈ (generateQ inpQ outcomeQ stQ).2 →
        r = false)) := by
  constructor
  · cases hk : inpR.apiKey with
    | none => cases hd : inpR.keyDialogAvailable <;> simp [generateR, hk, hd]
    | some k => simp [generateR, hk, hR]
  · cases hk : inpQ.apiKey with
    | none => cases hd : inpQ.keyDialogAvailable <;> simp [generateQ, hk, hd]
    | some k => simp [generateQ, hk, hQ]

theorem empty_prompt_no_network_no_history_witness :
    (jsTrim "   " = "" ∧ jsTrim "" = "") ∧
      (let inpR : GenInputR :=
        { apiKey := some "key", promptValue := "   ",
          aspectRatioValue := "1:1", resolutionValue := "1024",
          numImagesValue := "1", formatValue := "image/jpeg",
          keyDialogAvailable := true }
      let stR : AppStateR :=
        { history := ["cat"], stored := some ["cat"],
          controls := setControlsDisabled false, loadingHidden := true,
          status := StatusContent.text "" }
      let inpQ : GenInputQ :=
        { apiKey := some "key", promptValue := "",
          aspectRatioValue := "1:1", qualityValue := "high",
          numImagesValue := "1", formatValue := "image/jpeg",
          keyDialogAvailable := true }
      let stQ : AppStateQ :=
        { history := [], stored := none,
          controls := setControlsDisabledQ false, loadingHidden := true,
          status := StatusContent.text "" }
      ((∀ p, GenEvent.apiCall p ∉
          (generateR inpR (ApiOutcome.ok ["b"]) stR).2) ∧
        (generateR inpR (ApiOutcome.ok ["b"]) stR).1.history = stR.history ∧
        (generateR inpR (ApiOutcome.ok ["b"]) stR).1.stored = stR.stored ∧
        (∃ m, (generateR inpR (ApiOutcome.ok ["b"]) stR).1.status =
          StatusContent.error m false) ∧
        (∀ m r, GenEvent.statusError m r ∈
          (generateR inpR (ApiOutcome.ok ["b"]) stR).2 → r = false)) ∧
      ((∀ p, GenEvent.apiCall p ∉
          (generateQ inpQ (ApiOutcome.thrown "boom") stQ).2) ∧
        (generateQ inpQ (ApiOutcome.thrown "boom") stQ).1.history =
          stQ.history ∧
        (generateQ inpQ (ApiOutcome.thrown "boom") stQ).1.stored =
          stQ.stored ∧
        (∃ m, (generateQ inpQ (ApiOutcome.thrown "boom") stQ).1.status =
          StatusContent.error m false) ∧
        (∀ m r, GenEvent.statusError m r ∈
          (generateQ inpQ (ApiOutcome.thrown "boom") stQ).2 → r = false))) :=
  ⟨⟨by decide, by decide⟩,
    empty_prompt_no_network_no_history _ _ _ _ _ _ (by decide) (by decide)⟩

/-- C6: after every call of `generate()` in the index.tsx variant —
success, thrown error, or early return — the generate button, the prompt
field and the four option selectors are all enabled and the loading
overlay is hidden, provided the call started from the normal interactive
state (controls enabled, overlay hidden): the main path always re-enables
and hides in the finally block, and the early returns never disable or
show anything. -/
theorem generate_restores_controls
    (inp : GenInputR) (outcome : ApiOutcome) (st : AppStateR)
    (hc : st.controls = setControlsDisabled false)
    (hl : st.loadingHidden = true) :
    (generateR inp outcome st).1.controls = setControlsDisabled false ∧
      (generateR inp outcome st).1.loadingHidden = true := by
  cases hk : inp.apiKey with
  | none => cases hd : inp.keyDialogAvailable <;> simp [generateR, hk, hd, hc, hl]
  | some k =>
    by_cases hp : jsTrim inp.promptValue = ""
    · simp [generateR, hk, hp, hc, hl]
    · cases hres : generateImageResult outcome with
      | ok imgs =>
        by_cases hmem : jsTrim inp.promptValue ∈ st.history <;>
          simp [generateR, hk, hp, hres, hmem]
      | error m => simp [generateR, hk, hp, hres]

theorem generate_restores_controls_witness :
    (let inp : GenInputR :=
      { apiKey := some "key", promptValue := "a cat",
        aspectRatioValue := "1:1", resolutionValue := "1024",
        numImagesValue := "1", formatValue := "image/jpeg",
        keyDialogAvailable := true }
    let st : AppStateR :=
      { history := [], stored := none,
        controls := setControlsDisabled false, loadingHidden := true,
        status := StatusContent.text "" }
    (generateR inp (ApiOutcome.thrown "boom") st).1.controls =
        setControlsDisabled false ∧
      (generateR inp (ApiOutcome.thrown "boom") st).1.loadingHidden = true) :=
  generate_restores_controls _ _ _ rfl rfl

/-- C2 counterexample: with a configured API key and a non-empty prompt,
an API error whose message contains "403" and "permission" is handled by
the generic catch block: the run shows the generic "Generation failed"
message with the Try Again retry button and never opens the key-selection
dialog, contradicting the claim that such errors route to key
re-selection instead of the generic retry button. -/
theorem error403_generic_retry_counterexample :
    GenEvent.statusError "Generation failed: 403 permission denied" true ∈
        (generateR
          { apiKey := some "key", promptValue := "a cat",
            aspectRatioValue := "1:1", resolutionValue := "1024",
            numImagesValue := "1", formatValue := "image/jpeg",
            keyDialogAvailable := true }
          (ApiOutcome.thrown "403 permission denied")
          { history := [], stored := none,
            controls := setControlsDisabled false, loadingHidden := true,
            status := StatusContent.text "" }).2 ∧
      GenEvent.openKeyDialog ∉
        (generateR
          { apiKey := some "key", promptValue := "a cat",
            aspectRatioValue := "1:1", resolutionValue := "1024",
            numImagesValue := "1", formatValue := "image/jpeg",
            keyDialogAvailable := true }
          (ApiOutcome.thrown "403 permission denied")
          { history := [], stored := none,
            controls := setControlsDisabled false, loadingHidden := true,
            status := StatusContent.text "" }).2 := by
  decide

/-- C2 amended: the catch block of `generate()` never inspects the error
message: every failure of the try block — including messages containing
"403" or "permission" — shows the generic "Generation failed" message with
the Try Again button that re-invokes `generate()`, and never opens the
key-selection dialog; the key-selection dialog is opened only when the API
key is absent before any request is made. -/
theorem generate_failure_shows_generic_retry
    (inp : GenInputR) (outcome : ApiOutcome) (st : AppStateR) (k m : String)
    (hkey : inp.apiKey = some k)
    (hne : jsTrim inp.promptValue ≠ "")
    (herr : generateImageResult outcome = Except.error m) :
    GenEvent.statusError ("Generation failed: " ++ m) true ∈
        (generateR inp outcome st).2 ∧
      GenEvent.openKeyDialog ∉ (generateR inp outcome st).2 ∧
      (∀ (inp2 : GenInputR) (outcome2 : ApiOutcome) (st2 : AppStateR),
        inp2.apiKey = none → inp2.keyDialogAvailable = true →
        GenEvent.openKeyDialog ∈ (generateR inp2 outcome2 st2).2) := by
  refine ⟨?_, ?_, ?_⟩
  · simp [generateR, hkey, hne, herr]
  · simp [generateR, hkey, hne, herr]
  · intro inp2 outcome2 st2 h2 hd2
    simp [generateR, h2, hd2]

theorem generate_failure_shows_generic_retry_witness :
    (let inp : GenInputR :=
      { apiKey := some "key", promptValue := "a cat",
        aspectRatioValue := "1:1", resolutionValue := "1024",
        numImagesValue := "1", formatValue := "image/jpeg",
        keyDialogAvailable := true }
    let st : AppStateR :=
      { history := [], stored := none,
        controls := setControlsDisabled false, loadingHidden := true,
        status := StatusContent.text "" }
    GenEvent.statusError "Generation failed: quota exceeded" true ∈
        (generateR inp (ApiOutcome.thrown "quota exceeded") st).2 ∧
      GenEvent.openKeyDialog ∉
        (generateR inp (ApiOutcome.thrown "quota exceeded") st).2 ∧
      (∀ (inp2 : GenInputR) (outcome2 : ApiOutcome) (st2 : AppStateR),
        inp2.apiKey = none → inp2.keyDialogAvailable = true →
        GenEvent.openKeyDialog ∈ (generateR inp2 outcome2 st2).2)) :=
  generate_failure_shows_generic_retry _ _ _ "key" "quota exceeded" rfl
    (by decide) rfl

/-- C10: in the quality-select variant, with a configured key, a non-empty
trimmed prompt and a successful generation: when quality is "high" the
prompt sent to the image API is the trimmed user prompt with the fixed
photorealism suffix appended (and for any quality, every API call of the
run carries the suffixed prompt exactly when quality is "high"), while the
history update — including its duplicate check — always uses the raw
trimmed user prompt without the suffix. -/
theorem quality_suffix_sent_not_recorded
    (inp : GenInputQ) (outcome : ApiOutcome) (st : AppStateQ) (k : String)
    (imgs : List String)
    (hkey : inp.apiKey = some k)
    (hne : jsTrim inp.promptValue ≠ "")
    (hok : generateImageResult outcome = Except.ok imgs) :
    (inp.qualityValue = "high" →
      GenEvent.apiCall (jsTrim inp.promptValue ++ highQualitySuffix) ∈
        (generateQ inp outcome st).2) ∧
    (∀ p, GenEvent.apiCall p ∈ (generateQ inp outcome st).2 →
      p = (if inp.qualityValue = "high" then
          jsTrim inp.promptValue ++ highQualitySuffix
        else jsTrim inp.promptValue)) ∧
    (generateQ inp outcome st).1.history =
      record st.history (jsTrim inp.promptValue) := by
  by_cases hmem : jsTrim inp.promptValue ∈ st.history
  · have hr := record_of_mem st.history (jsTrim inp.promptValue) hmem
    by_cases hq : inp.qualityValue = "high" <;>
      simp [generateQ, hkey, hne, hok, hmem, hq, hr]
  · by_cases hq : inp.qualityValue = "high" <;>
      simp [generateQ, hkey, hne, hok, hmem, hq]

theorem quality_suffix_sent_not_recorded_witness :
    (let inp : GenInputQ :=
      { apiKey := some "key", promptValue := " a red fox ",
        aspectRatioValue := "1:1", qualityValue := "high",
        numImagesValue := "1", formatValue := "image/jpeg",
        keyDialogAvailable := true }
    let st : AppStateQ :=
      { history := ["a red fox"], stored := some ["a red fox"],
        controls := setControlsDisabledQ false, loadingHidden := true,
        status := StatusContent.text "" }
    (inp.qualityValue = "high" →
      GenEvent.apiCall (jsTrim " a red fox " ++ highQualitySuffix) ∈
        (generateQ inp (ApiOutcome.ok ["b"]) st).2) ∧
    (∀ p, GenEvent.apiCall p ∈ (generateQ inp (ApiOutcome.ok ["b"]) st).2 →
      p = (if inp.qualityValue = "high" then
          jsTrim " a red fox " ++ highQualitySuffix
        else jsTrim " a red fox ")) ∧
    (generateQ inp (ApiOutcome.ok ["b"]) st).1.history =
      record ["a red fox"] (jsTrim " a red fox ")) :=
  quality_suffix_sent_not_recorded _ _ _ "key" ["b"] rfl (by decide) rfl

/-- Decimal integer prefix parse, embedding JS `parseInt(s, 10)` for the
non-negative inputs the upscale flow feeds it: `none` models `NaN`. -/
def parseIntDec (s : String) : Option Nat :=
  let ds := s.data.takeWhile Char.isDigit
  if ds.isEmpty then none
  else some (ds.foldl (fun acc c => acc * 10 + (c.toNat - Char.toNat '0')) 0)

/-- Embedding of JS `value.replace('x', '')` with a string pattern, which
removes only the first occurrence. -/
def removeFirstX (cs : List Char) : List Char :=
  match cs with
  | [] => []
  | c :: rest => if c = 'x' then rest else c :: removeFirstX rest

/-- The upscale factor read at the top of `upscaleImage`
(src/index.tsx line 114): `parseInt(upscaleSelect.value.replace('x', ''), 10)`
on the selector value ("2x", "3x" or "4x"). -/
def upscaleFactorOf (selectValue : String) : Nat :=
  (parseIntDec (String.mk (removeFirstX selectValue.data))).getD 0

/-- An inline-data part of the model response: base64 bytes and MIME type. -/
structure InlineData where
  data : String
  mimeType : String
deriving DecidableEq

/-- One part of the response candidate content of the upscale model. -/
structure ResponsePart where
  inlineData : Option InlineData
  text : Option String
deriving DecidableEq

/-- The scan over `response.candidates[0].content.parts` that takes the
first part carrying inline data and stops (src/index.tsx lines 174-180). -/
def findInlineData (parts : List ResponsePart) : Option InlineData :=
  match parts with
  | [] => none
  | part :: rest =>
    match part.inlineData with
    | some d => some d
    | none => findInlineData rest

/-- What clicking the action button of a card does: either start an upscale of
the captured original bytes (the initial wiring of src/index.tsx lines
255-257 and the retry wiring of line 211), or download the captured image
URL (the wiring installed on success, src/index.tsx lines 196-203). -/
inductive CardAction where
  | upscaleAct (originalBase64 : String) (mimeType : String)
  | downloadAct (href : String) (mimeType : String) (factor : Nat)
deriving DecidableEq

/-- The DOM state of one image card that `upscaleImage` touches: the image
source and opacity, the disabled flag and label of the action button, the
presence, disabled flag and value of the factor selector, and the click
action of the button. -/
structure CardState where
  imgSrc : String
  imgOpacity : String
  buttonDisabled : Bool
  buttonText : String
  selectRemoved : Bool
  selectDisabled : Bool
  selectValue : String
  action : CardAction
deriving DecidableEq

/-- The card built by `createImageCard` (src/index.tsx lines 222-266): the
original image shown, an enabled Upscale button, and a factor selector
whose first option "2x" is selected by default. -/
def createImageCard (originalBase64 : String) (format : String) : CardState :=
  { imgSrc := "data:" ++ format ++ ";base64," ++ originalBase64,
    imgOpacity := "1",
    buttonDisabled := false,
    buttonText := "Upscale",
    selectRemoved := false,
    selectDisabled := false,
    selectValue := "2x",
    action := CardAction.upscaleAct originalBase64 format }

/-- Outcome of `getImageDimensions` on the original image (src/index.tsx
lines 91-102): the natural width and height, or a rejection. -/
inductive DimensionsResult where
  | ok (width : Nat) (height : Nat)
  | err (msg : String)
deriving DecidableEq

/-- Outcome of the upscale model call (src/index.tsx lines 151-169):
the response parts, or a thrown error. -/
inductive UpscaleApiResult where
  | ok (parts : List ResponsePart)
  | thrown (msg : String)
deriving DecidableEq

/-- Literal chunks of the upscale prompt template (src/index.tsx lines
140-148), split at the three interpolation sites. -/
def upscalePromptPart1 : String :=
  "\n      TASK DEFINITION: High-Resolution Image Upscaling\n      MODEL: You are an image processing model. Your task is to perform a high-fidelity upscale of the provided input image.\n      INPUT RESOLUTION: "

def upscalePromptPart2 : String :=
  " pixels.\n      REQUIRED OUTPUT RESOLUTION: EXACTLY "

def upscalePromptPart3 : String :=
  " pixels.\n      CRITICAL INSTRUCTION: The output image\x27s dimensions MUST match the required output resolution precisely. Do not alter the aspect ratio.\n      PROCESS: Analyze the input image\x27s content, structure, and details. Regenerate the image at the target resolution, intelligently adding photorealistic details, enhancing textures, and sharpening lines. Avoid introducing artifacts. The final output must be a clean, high-resolution version of the original.\n      FAILURE CONDITION: Any output that does not match the exact target resolution of "

def upscalePromptPart4 : String :=
  " is considered a failed execution of this task.\n    "

/-- The upscale prompt (src/index.tsx lines 136-148): the template with
`width`x`height` and twice `targetWidth`x`targetHeight` interpolated,
where the target dimensions are `originalDimension * factor`. -/
def upscalePrompt (width : Nat) (height : Nat) (upscaleFactor : Nat) : String :=
  let targetWidth := width * upscaleFactor
  let targetHeight := height * upscaleFactor
  upscalePromptPart1 ++ toString width ++ "x" ++ toString height ++
    upscalePromptPart2 ++ toString targetWidth ++ "x" ++ toString targetHeight ++
    upscalePromptPart3 ++ toString targetWidth ++ "x" ++ toString targetHeight ++
    upscalePromptPart4

/-- The request `upscaleImage` sends to the model (src/index.tsx lines
151-169): the original image as inline data plus the prompt text. -/
structure UpscaleRequest where
  imageData : String
  imageMimeType : String
  promptText : String
deriving DecidableEq

/-- `upscaleImage` (src/index.tsx lines 111-213) as a function from the
API key, the card, the captured original bytes and MIME type, and the two
oracle outcomes (image-dimension read, model call) to the final card state
and the request sent (none when no request was made). In source order: the
in-flight state is entered (button and selector disabled, "Upscaling...",
half opacity); with no API key everything is restored (the status message
shown in that branch is outside the card and not modelled); otherwise the
dimensions are read, the prompt is built from `width*factor` and
`height*factor`, the model is called, and the first inline-data part
becomes the new image: on success the selector is removed and the button
becomes a Download action holding the new data URL; on any failure
(dimension read rejection, thrown call, or no image part returned) the
controls are re-enabled, the button reads "Upscale Failed - Retry" and its
click action restarts `upscaleImage` with the same original bytes and MIME
type. -/
def upscaleImage (apiKey : Option String) (card : CardState)
    (originalBase64 : String) (mimeType : String)
    (dims : DimensionsResult) (apiResult : UpscaleApiResult) :
    CardState × Option UpscaleRequest :=
  let upscaleFactor := upscaleFactorOf card.selectValue
  let inflight := { card with
      buttonDisabled := true,
      selectDisabled := true,
      buttonText := "Upscaling...",
      imgOpacity := "0.5" }
  match apiKey with
  | none =>
    ({ inflight with
        buttonDisabled := false,
        selectDisabled := false,
        buttonText := "Upscale",
        imgOpacity := "1" }, none)
  | some _ =>
    let failed := { inflight with
        buttonDisabled := false,
        selectDisabled := false,
        buttonText := "Upscale Failed - Retry",
        imgOpacity := "1",
        action := CardAction.upscaleAct originalBase64 mimeType }
    match dims with
    | DimensionsResult.err _ => (failed, none)
    | DimensionsResult.ok width height =>
      let request : UpscaleRequest :=
        { imageData := originalBase64,
          imageMimeType := mimeType,
          promptText := upscalePrompt width height upscaleFactor }
      match apiResult with
      | UpscaleApiResult.thrown _ => (failed, some request)
      | UpscaleApiResult.ok parts =>
        match findInlineData parts with
        | none => (failed, some request)
        | some d =>
          let newImageUrl := "data:" ++ d.mimeType ++ ";base64," ++ d.data
          ({ inflight with
              imgSrc := newImageUrl,
              imgOpacity := "1",
              selectRemoved := true,
              buttonText := "Download",
              buttonDisabled := false,
              action := CardAction.downloadAct newImageUrl d.mimeType upscaleFactor },
           some request)

/-- Clicking the action button of a card: an upscale action re-runs
`upscaleImage` with its captured arguments; a download action only creates
and clicks an anchor (src/index.tsx lines 196-203) and changes no card
state and sends no upscale request. -/
def clickCard (apiKey : Option String) (card : CardState)
    (dims : DimensionsResult) (apiResult : UpscaleApiResult) :
    CardState × Option UpscaleRequest :=
  match card.action with
  | CardAction.upscaleAct originalBase64 mimeType =>
    upscaleImage apiKey card originalBase64 mimeType dims apiResult
  | CardAction.downloadAct _ _ _ => (card, none)

/-- An upscale attempt fails when the dimension read rejects, the model
call throws, or the response carries no inline-data part. -/
def upscaleFailed (dims : DimensionsResult) (apiResult : UpscaleApiResult) :
    Prop :=
  (∃ m, dims = DimensionsResult.err m) ∨
    (∃ m, apiResult = UpscaleApiResult.thrown m) ∨
    (∃ parts, apiResult = UpscaleApiResult.ok parts ∧
      findInlineData parts = none)

/-- C7: when an upscale attempt fails (dimension read rejected, model call
thrown, or no image part returned), the card returns to an interactive
retry state: the button and the factor selector are re-enabled, the button
reads "Upscale Failed - Retry", the image is restored to full opacity with
its source and the selector value untouched, and the click action holds
the same original bytes and MIME type; triggering that retry sends a new
upscale request with exactly the same original image bytes and the same
factor as the failed attempt (the factor re-read from the unchanged
selector value). -/
theorem upscale_failure_retry_state (k : String) (card : CardState)
    (orig : String) (mime : String)
    (dims : DimensionsResult) (api : UpscaleApiResult)
    (hfail : upscaleFailed dims api) :
    (upscaleImage (some k) card orig mime dims api).1 =
      { card with
          buttonDisabled := false,
          selectDisabled := false,
          buttonText := "Upscale Failed - Retry",
          imgOpacity := "1",
          action := CardAction.upscaleAct orig mime } ∧
    (∀ (w : Nat) (h : Nat) (api2 : UpscaleApiResult),
      (clickCard (some k) (upscaleImage (some k) card orig mime dims api).1
          (DimensionsResult.ok w h) api2).2 =
        some { imageData := orig, imageMimeType := mime,
               promptText := upscalePrompt w h
                 (upscaleFactorOf card.selectValue) }) := by
  have hcard : (upscaleImage (some k) card orig mime dims api).1 =
      { card with
          buttonDisabled := false,
          selectDisabled := false,
          buttonText := "Upscale Failed - Retry",
          imgOpacity := "1",
          action := CardAction.upscaleAct orig mime } := by
    rcases hfail with ⟨m, rfl⟩ | ⟨m, rfl⟩ | ⟨parts, rfl, hfi⟩
    · rfl
    · cases dims <;> rfl
    · cases dims with
      | ok w h => simp [upscaleImage, hfi]
      | err m2 => rfl
  refine ⟨hcard, ?_⟩
  intro w h api2
  rw [hcard]
  cases api2 with
  | thrown m2 => rfl
  | ok parts =>
    cases hfi : findInlineData parts <;> simp [clickCard, upscaleImage, hfi]

theorem upscale_failure_retry_state_witness :
    (upscaleFailed (DimensionsResult.ok 512 512)
        (UpscaleApiResult.thrown "model error") ∧
      ((upscaleImage (some "key") (createImageCard "AAAA" "image/png")
          "AAAA" "image/png" (DimensionsResult.ok 512 512)
          (UpscaleApiResult.thrown "model error")).1 =
        { createImageCard "AAAA" "image/png" with
            buttonDisabled := false,
            selectDisabled := false,
            buttonText := "Upscale Failed - Retry",
            imgOpacity := "1",
            action := CardAction.upscaleAct "AAAA" "image/png" } ∧
      (∀ (w : Nat) (h : Nat) (api2 : UpscaleApiResult),
        (clickCard (some "key")
            (upscaleImage (some "key") (createImageCard "AAAA" "image/png")
              "AAAA" "image/png" (DimensionsResult.ok 512 512)
              (UpscaleApiResult.thrown "model error")).1
            (DimensionsResult.ok w h) api2).2 =
          some { imageData := "AAAA", imageMimeType := "image/png",
                 promptText := upscalePrompt w h
                   (upscaleFactorOf
                     (createImageCard "AAAA" "image/png").selectValue) }))) :=
  ⟨Or.inr (Or.inl ⟨"model error", rfl⟩),
    upscale_failure_retry_state "key" (createImageCard "AAAA" "image/png")
      "AAAA" "image/png" (DimensionsResult.ok 512 512)
      (UpscaleApiResult.thrown "model error")
      (Or.inr (Or.inl ⟨"model error", rfl⟩))⟩

/-- C8: when an upscale attempt succeeds (the response carries an
inline-data part), the image source of the card becomes the data URL of the
returned (upscaled) bytes, the factor selector is removed, and the button
becomes an enabled Download action whose href is that new data URL — built
from the returned bytes, not the original ones; the state is terminal:
clicking the action of the card thereafter changes nothing and sends no further
upscale request. -/
theorem upscale_success_download_terminal (k : String) (card : CardState)
    (orig : String) (mime : String) (w : Nat) (h : Nat)
    (parts : List ResponsePart) (d : InlineData)
    (hfi : findInlineData parts = some d) :
    (upscaleImage (some k) card orig mime (DimensionsResult.ok w h)
        (UpscaleApiResult.ok parts)).1 =
      { card with
          imgSrc := "data:" ++ d.mimeType ++ ";base64," ++ d.data,
          imgOpacity := "1",
          buttonDisabled := false,
          buttonText := "Download",
          selectRemoved := true,
          selectDisabled := true,
          action := CardAction.downloadAct
            ("data:" ++ d.mimeType ++ ";base64," ++ d.data) d.mimeType
            (upscaleFactorOf card.selectValue) } ∧
    (∀ (key2 : Option String) (dims2 : DimensionsResult)
        (api2 : UpscaleApiResult),
      clickCard key2
          (upscaleImage (some k) card orig mime (DimensionsResult.ok w h)
            (UpscaleApiResult.ok parts)).1 dims2 api2 =
        ((upscaleImage (some k) card orig mime (DimensionsResult.ok w h)
            (UpscaleApiResult.ok parts)).1, none)) := by
  have hcard : (upscaleImage (some k) card orig mime (DimensionsResult.ok w h)
      (UpscaleApiResult.ok parts)).1 =
      { card with
          imgSrc := "data:" ++ d.mimeType ++ ";base64," ++ d.data,
          imgOpacity := "1",
          buttonDisabled := false,
          buttonText := "Download",
          selectRemoved := true,
          selectDisabled := true,
          action := CardAction.downloadAct
            ("data:" ++ d.mimeType ++ ";base64," ++ d.data) d.mimeType
            (upscaleFactorOf card.selectValue) } := by
    simp [upscaleImage, hfi]
  refine ⟨hcard, ?_⟩
  intro key2 dims2 api2
  rw [hcard]
  rfl

theorem upscale_success_download_terminal_witness :
    (findInlineData
        [{ inlineData := some { data := "BBBB", mimeType := "image/png" }, text := none }] =
      some { data := "BBBB", mimeType := "image/png" } ∧
      ((upscaleImage (some "key") (createImageCard "AAAA" "image/png")
          "AAAA" "image/png" (DimensionsResult.ok 512 512)
          (UpscaleApiResult.ok
            [{ inlineData := some { data := "BBBB", mimeType := "image/png" }, text := none }])).1 =
        { createImageCard "AAAA" "image/png" with
            imgSrc := "data:" ++ "image/png" ++ ";base64," ++ "BBBB",
            imgOpacity := "1",
            buttonDisabled := false,
            buttonText := "Download",
            selectRemoved := true,
            selectDisabled := true,
            action := CardAction.downloadAct
              ("data:" ++ "image/png" ++ ";base64," ++ "BBBB") "image/png"
              (upscaleFactorOf
                (createImageCard "AAAA" "image/png").selectValue) } ∧
      (∀ (key2 : Option String) (dims2 : DimensionsResult)
          (api2 : UpscaleApiResult),
        clickCard key2
            (upscaleImage (some "key") (createImageCard "AAAA" "image/png")
              "AAAA" "image/png" (DimensionsResult.ok 512 512)
              (UpscaleApiResult.ok
                [{ inlineData := some { data := "BBBB", mimeType := "image/png" }, text := none }])).1
            dims2 api2 =
          ((upscaleImage (some "key") (createImageCard "AAAA" "image/png")
              "AAAA" "image/png" (DimensionsResult.ok 512 512)
              (UpscaleApiResult.ok
                [{ inlineData := some { data := "BBBB", mimeType := "image/png" }, text := none }])).1,
            none)))) :=
  ⟨rfl,
    upscale_success_download_terminal "key" (createImageCard "AAAA" "image/png")
      "AAAA" "image/png" 512 512
      [{ inlineData := some { data := "BBBB", mimeType := "image/png" }, text := none }]
      { data := "BBBB", mimeType := "image/png" } rfl⟩

/-- C9: for every upscale invocation that reaches the model call (API key
present, dimensions read as width x height), the request sent carries the
original bytes and a prompt equal to the template instantiated with the
selected factor; that prompt spells the target resolution as the substring
"EXACTLY (width*factor)x(height*factor) pixels." (the decomposition below
exhibits the target dimensions between a prefix ending in "EXACTLY " and a
suffix starting with " pixels."); and the success handling accepts
whatever inline data the model returns — for every returned byte string
the card simply adopts it as the new image source, with no comparison of
the actual pixel dimensions of the returned image against the target. -/
theorem upscale_prompt_target_resolution (k : String) (card : CardState)
    (orig : String) (mime : String) (w : Nat) (h : Nat)
    (api : UpscaleApiResult) :
    (upscaleImage (some k) card orig mime (DimensionsResult.ok w h) api).2 =
      some { imageData := orig, imageMimeType := mime,
             promptText := upscalePrompt w h
               (upscaleFactorOf card.selectValue) } ∧
    (∃ pre post : String,
      upscalePrompt w h (upscaleFactorOf card.selectValue) =
        pre ++ (toString (w * upscaleFactorOf card.selectValue) ++ "x" ++
          toString (h * upscaleFactorOf card.selectValue)) ++ post ∧
      (∃ s : String, pre = s ++ "EXACTLY ") ∧
      (∃ t : String, post = " pixels." ++ t)) ∧
    (∀ (d : InlineData) (rest : List ResponsePart),
      (upscaleImage (some k) card orig mime (DimensionsResult.ok w h)
          (UpscaleApiResult.ok
            ({ inlineData := some d, text := none } :: rest))).1.imgSrc =
        "data:" ++ d.mimeType ++ ";base64," ++ d.data) := by
  refine ⟨?_, ?_, ?_⟩
  · cases api with
    | thrown m => rfl
    | ok parts =>
      cases hfi : findInlineData parts <;> simp [upscaleImage, hfi]
  · refine ⟨upscalePromptPart1 ++ toString w ++ "x" ++ toString h ++
        upscalePromptPart2,
      upscalePromptPart3 ++
        toString (w * upscaleFactorOf card.selectValue) ++ "x" ++
        toString (h * upscaleFactorOf card.selectValue) ++
        upscalePromptPart4,
      ?_,
      ⟨upscalePromptPart1 ++ toString w ++ "x" ++ toString h ++
        " pixels.\n      REQUIRED OUTPUT RESOLUTION: ", ?_⟩,
      ⟨"\n      CRITICAL INSTRUCTION: The output image\x27s dimensions MUST match the required output resolution precisely. Do not alter the aspect ratio.\n      PROCESS: Analyze the input image\x27s content, structure, and details. Regenerate the image at the target resolution, intelligently adding photorealistic details, enhancing textures, and sharpening lines. Avoid introducing artifacts. The final output must be a clean, high-resolution version of the original.\n      FAILURE CONDITION: Any output that does not match the exact target resolution of " ++
        toString (w * upscaleFactorOf card.selectValue) ++ "x" ++
        toString (h * upscaleFactorOf card.selectValue) ++
        upscalePromptPart4, ?_⟩⟩
    · simp only [upscalePrompt, String.append_assoc]
    · have hsplit2 : upscalePromptPart2 =
          " pixels.\n      REQUIRED OUTPUT RESOLUTION: " ++ "EXACTLY " := rfl
      rw [hsplit2]
      simp only [String.append_assoc]
    · have hsplit3 : upscalePromptPart3 =
          " pixels." ++
            "\n      CRITICAL INSTRUCTION: The output image\x27s dimensions MUST match the required output resolution precisely. Do not alter the aspect ratio.\n      PROCESS: Analyze the input image\x27s content, structure, and details. Regenerate the image at the target resolution, intelligently adding photorealistic details, enhancing textures, and sharpening lines. Avoid introducing artifacts. The final output must be a clean, high-resolution version of the original.\n      FAILURE CONDITION: Any output that does not match the exact target resolution of " := rfl
      rw [hsplit3]
      simp only [String.append_assoc]
  · intro d rest
    simp [upscaleImage, findInlineData]
